import Mathlib

/-!
Verification of the query-execution orchestration layer of the lean-analytics
repository, together with the Athena named-query catalog provisioned by its
CDK stacks.

The orchestration engine itself (`ui/server.js`: submission dispatcher,
execution poller, result normalizer and facade) is not present in the source
tree; only its README, its API tests and the shell validation scripts that
exercise the same polling protocol are.  The definitions below that concern
the dispatcher, poller and normalizer are therefore modelled from the
specification, with the numeric polling budget taken from the polling loop in
`scripts/validate-athena.sh` (`max_attempts=30`, `sleep 2`).  The named-query
catalog definitions are translated directly from `cdk/lib/athena-stack.ts`
and `cdk/bin/app.ts`.
-/

set_option autoImplicit false

namespace LeanAnalytics

/-- One engine status report, as returned by a `getStatus` call: the raw state
string (`QueryExecution.Status.State`) and the engine-supplied reason string
(`QueryExecution.Status.StateChangeReason`, empty when absent). -/
structure StatusReport where
  state : String
  reason : String
deriving DecidableEq

/-- Error taxonomy of the orchestration layer (spec section 7). -/
inductive ErrorKind
  | invalidRequest
  | notFound
  | engineFailure
  | cancelled
  | timedOut
  | transportError
  | unknownState
deriving DecidableEq

/-- Outcome of one run of the poll loop. -/
inductive PollResult
  | success
  | failure (kind : ErrorKind) (message : String)
  | timedOut
deriving DecidableEq

/-- The known engine state set: the in-progress states plus the three
engine-side terminal states. -/
def knownStates : List String :=
  ["QUEUED", "RUNNING", "SUCCEEDED", "FAILED", "CANCELLED"]

/-- Modelled from the spec: classification of one engine status report by the
execution poller (spec sections 4.2 and 7); the poller itself lives in
`ui/server.js`, which is missing from the source tree.  `SUCCEEDED` hands
control to the normalizer; `FAILED` and `CANCELLED` wrap the engine-supplied
reason verbatim into a typed failure; `QUEUED` and `RUNNING` continue polling;
any status outside the known set is an unknown-status failure, never silently
retried. -/
def classify (r : StatusReport) : Option PollResult :=
  if r.state = "SUCCEEDED" then some PollResult.success
  else if r.state = "FAILED" then some (PollResult.failure ErrorKind.engineFailure r.reason)
  else if r.state = "CANCELLED" then some (PollResult.failure ErrorKind.cancelled r.reason)
  else if r.state = "QUEUED" ∨ r.state = "RUNNING" then none
  else some (PollResult.failure ErrorKind.unknownState r.state)

/-- Modelled from the spec: the bounded poll loop of the execution poller
(spec section 4.2), missing with `ui/server.js`.  `engine` is the stream of
status reports (the report served to the k-th status query), `interval` the
fixed wait between polls.  The loop issues one status query per iteration at
attempt index `attempt` and clock `now`, stops at the first terminal
classification, and returns `TimedOut` when the attempt budget is exhausted.
It also returns the trace of `(attempt, time)` pairs, one per status query
issued. -/
def pollFrom (engine : Nat → StatusReport) (interval : Nat) :
    Nat → Nat → Nat → PollResult × List (Nat × Nat)
  | 0, _, _ => (PollResult.timedOut, [])
  | fuel + 1, attempt, now =>
    match classify (engine attempt) with
    | some res => (res, [(attempt, now)])
    | none =>
      let rest := pollFrom engine interval fuel (attempt + 1) (now + interval)
      (rest.1, (attempt, now) :: rest.2)

/-- Fixed poll interval, in seconds (`sleep 2` in the polling loop of
`scripts/validate-athena.sh`). -/
def pollInterval : Nat := 2

/-- Bounded attempt budget of the poll loop (`max_attempts=30` in
`scripts/validate-athena.sh`). -/
def maxAttempts : Nat := 30

/-- Modelled from the spec: one full run of the execution poller for a freshly
submitted execution, starting at attempt 0 and clock 0. -/
def runPoller (engine : Nat → StatusReport) : PollResult × List (Nat × Nat) :=
  pollFrom engine pollInterval maxAttempts 0 0

/-- Column metadata of a result set: name and type, as in the
`ResultSet.ResultSetMetadata.ColumnInfo` of the engine and the `headers`
entries of the response documented in `ui/README.md`. -/
structure Column where
  name : String
  type : String
deriving DecidableEq

/-- One result page served by a `getResults` call: column metadata, row data
(values passed through as strings) and the optional continuation token. -/
structure Page where
  columns : List Column
  rows : List (List String)
  nextToken : Option String
deriving DecidableEq

/-- Execution statistics reported with a result set (spec section 3). -/
structure Stats where
  executionTimeMs : Nat
  bytesScanned : Nat
deriving DecidableEq

/-- The stable result representation produced by the normalizer
(spec section 3). -/
structure ResultSet where
  columns : List Column
  rows : List (List String)
  rowCount : Nat
  stats : Stats
deriving DecidableEq

/-- Column metadata is read once from the first page and is authoritative for
the whole set; these are its column names in order. -/
def columnNames (pages : List Page) : List String :=
  ((pages.head?.map Page.columns).getD []).map Column.name

/-- All row data of a paginated result, pages concatenated in fetch order. -/
def allRows (pages : List Page) : List (List String) :=
  (pages.map Page.rows).flatten

/-- Modelled from the spec: duplicate-header stripping of the result
normalizer (spec section 4.3), missing with `ui/server.js`.  The first row is
dropped exactly when its values equal the column names positionally; no other
row is ever dropped. -/
def dropDuplicateHeader (names : List String) (rows : List (List String)) :
    List (List String) :=
  match rows with
  | [] => []
  | first :: rest => if first = names then rest else first :: rest

/-- Modelled from the spec: assembly of fetched pages into one `ResultSet` by
the result normalizer (spec section 4.3), missing with `ui/server.js`.
Columns come from the first page, rows are appended in engine order and the
duplicated header row, if present, is removed before `rowCount` is taken. -/
def assemble (pages : List Page) (stats : Stats) : ResultSet :=
  let rows := dropDuplicateHeader (columnNames pages) (allRows pages)
  { columns := (pages.head?.map Page.columns).getD []
    rows := rows
    rowCount := rows.length
    stats := stats }

/-- Modelled from the spec: the pagination loop of the result normalizer
(spec section 4.3), missing with `ui/server.js`.  `fetches` is the sequence of
page-fetch outcomes the engine serves in order.  Fetching continues until the
engine returns a page with no continuation token; a failed fetch before that
point fails the whole pagination, and a continuation token with no further
page to serve is a transport failure as well. -/
def collectPages : List (Except String Page) → Except String (List Page)
  | [] => Except.error "result page missing"
  | Except.error e :: _ => Except.error e
  | Except.ok p :: rest =>
    match p.nextToken with
    | none => Except.ok [p]
    | some _ => (collectPages rest).map (fun ps => p :: ps)

/-- Modelled from the spec: the result normalizer for a `Succeeded` execution
(spec section 4.3), missing with `ui/server.js`: fetch every page until the
engine signals no further continuation token and assemble one `ResultSet`, or
fail the whole normalization. -/
def normalizeResults (fetches : List (Except String Page)) (stats : Stats) :
    Except String ResultSet :=
  (collectPages fetches).map (fun ps => assemble ps stats)

/-- One catalog entry of the named query catalog (spec section 3). -/
structure NamedQueryEntry where
  id : String
  displayName : String
  description : String
  sqlTemplate : String
deriving DecidableEq

/-- Lookup of a named query by id in the catalog. -/
def lookupNamed (catalog : List NamedQueryEntry) (i : String) :
    Option NamedQueryEntry :=
  catalog.find? (fun e => e.id == i)

/-- An inbound query request: custom SQL text or a named-query id
(spec section 3). -/
inductive QueryRequest
  | custom (sql : String)
  | named (id : String)
deriving DecidableEq

/-- The single value the facade returns per request (spec section 3). -/
inductive QueryOutcome
  | success (rs : ResultSet)
  | failure (kind : ErrorKind) (message : String)
deriving DecidableEq

/-- A SQL string that is empty after trimming, i.e. empty or consisting only
of whitespace characters. -/
def blankSql (sql : String) : Bool :=
  sql.data.all Char.isWhitespace

/-- Modelled from the spec: the submission dispatcher (spec section 4.1),
missing with `ui/server.js`.  A named request resolves through the catalog and
fails with `NotFound` when the id is absent; custom SQL must be non-empty
after trimming and no longer than the configured maximum `maxLen`, failing
with `InvalidRequest` otherwise.  No engine interaction happens here. -/
def resolveRequest (catalog : List NamedQueryEntry) (maxLen : Nat) :
    QueryRequest → Except (ErrorKind × String) String
  | QueryRequest.named i =>
    match lookupNamed catalog i with
    | some e => Except.ok e.sqlTemplate
    | none => Except.error (ErrorKind.notFound, "Named query not found: " ++ i)
  | QueryRequest.custom sql =>
    if blankSql sql then
      Except.error (ErrorKind.invalidRequest, "SQL query cannot be empty")
    else if maxLen < sql.length then
      Except.error (ErrorKind.invalidRequest, "SQL query exceeds maximum length")
    else Except.ok sql

/-- The engine collaborator as the orchestration sees it for one execution:
the status stream served to successive polls, the page-fetch outcomes served
to the normalizer, and the reported statistics. -/
structure EngineModel where
  statusAt : Nat → StatusReport
  pages : List (Except String Page)
  stats : Stats

/-- Modelled from the spec: the orchestration facade
`execute(QueryRequest) -> QueryOutcome` (spec section 4.5), missing with
`ui/server.js`.  It sequences dispatcher, engine submission, poller and
normalizer, and additionally reports how many submission calls were issued to
the engine (0 when validation fails fast, 1 otherwise). -/
def execute (catalog : List NamedQueryEntry) (maxLen : Nat)
    (engine : EngineModel) (req : QueryRequest) : QueryOutcome × Nat :=
  match resolveRequest catalog maxLen req with
  | Except.error (k, m) => (QueryOutcome.failure k m, 0)
  | Except.ok _ =>
    match (runPoller engine.statusAt).1 with
    | PollResult.success =>
      match normalizeResults engine.pages engine.stats with
      | Except.ok rs => (QueryOutcome.success rs, 1)
      | Except.error m => (QueryOutcome.failure ErrorKind.transportError m, 1)
    | PollResult.failure k m => (QueryOutcome.failure k m, 1)
    | PollResult.timedOut =>
      (QueryOutcome.failure ErrorKind.timedOut "Query timed out", 1)

/-- Modelled from the spec: the named query catalog of the UI server as
documented in `ui/README.md` (`top_orders`, `returns_by_customer`,
`returned_orders`); the catalog data itself lives in `ui/server.js`, which is
missing from the source tree.  Only ids and display metadata matter for the
claims; the SQL templates are the ones registered in the infrastructure. -/
def serverCatalog : List NamedQueryEntry :=
  [ { id := "top_orders"
      displayName := "Top Orders"
      description := "Shows the 10 highest value orders with customer information."
      sqlTemplate := "SELECT * FROM orders ORDER BY order_total DESC LIMIT 10" }
  , { id := "returns_by_customer"
      displayName := "Returns by Customer"
      description := "Shows customers and their return information."
      sqlTemplate := "SELECT * FROM customers LEFT JOIN returns USING (customer_id)" }
  , { id := "returned_orders"
      displayName := "Returned Orders"
      description := "Shows orders that have been returned with financial analysis."
      sqlTemplate := "SELECT * FROM orders INNER JOIN returns USING (order_id)" } ]

/-- A provisioned Athena named query, as created by `athena.CfnNamedQuery` in
`cdk/lib/athena-stack.ts`. -/
structure CfnNamedQuery where
  name : String
  description : String
  database : String
  workGroup : String
  queryString : String
deriving DecidableEq

/-- The Glue database name, `lean_demo_db`, defined in
`cdk/lib/data-stack.ts` and referenced by the named queries through
`glueDatabase.ref`. -/
def glueDatabaseName : String := "lean_demo_db"

/-- The Athena workgroup name from `cdk/lib/athena-stack.ts`
(`name: 'lean_demo_wg'` on the `CfnWorkGroup`). -/
def workGroupName : String := "lean_demo_wg"

/-- Named Query 1 of `cdk/lib/athena-stack.ts`: top 10 orders by order_total. -/
def topOrdersQuery : CfnNamedQuery :=
  { name := "top_10_orders_by_total"
    description := "Top 10 orders by order_total - Shows highest value orders"
    database := glueDatabaseName
    workGroup := workGroupName
    queryString := "-- Top 10 orders by order_total\n-- Shows the highest value orders with customer and date information\nSELECT \n    o.order_id,\n    o.customer_id,\n    c.customer_name,\n    c.email,\n    o.order_date,\n    o.order_total,\n    o.status\nFROM orders o\nJOIN customers c ON o.customer_id = c.customer_id\nORDER BY o.order_total DESC\nLIMIT 10;" }

/-- Named Query 2 of `cdk/lib/athena-stack.ts`: returns by customer. -/
def returnsByCustomerQuery : CfnNamedQuery :=
  { name := "returns_by_customer"
    description := "Returns by customer using LEFT JOIN - Shows all customers and their returns if any"
    database := glueDatabaseName
    workGroup := workGroupName
    queryString := "-- Returns by customer (LEFT JOIN)\n-- Shows all customers and their return information (if any)\n-- Includes customers who haven\x27t made returns\nSELECT \n    c.customer_id,\n    c.customer_name,\n    c.email,\n    c.registration_date,\n    r.return_id,\n    r.order_id,\n    r.return_date,\n    r.return_reason,\n    r.refund_amount,\n    CASE \n        WHEN r.return_id IS NOT NULL THEN \x27Has Returns\x27\n        ELSE \x27No Returns\x27\n    END AS return_status\nFROM customers c\nLEFT JOIN orders o ON c.customer_id = o.customer_id\nLEFT JOIN returns r ON o.order_id = r.order_id\nORDER BY c.customer_name, r.return_date DESC;" }

/-- Named Query 3 of `cdk/lib/athena-stack.ts`: orders that were returned. -/
def returnedOrdersQuery : CfnNamedQuery :=
  { name := "orders_that_were_returned"
    description := "Orders that were returned using INNER JOIN - Shows only orders with returns"
    database := glueDatabaseName
    workGroup := workGroupName
    queryString := "-- Orders that were returned\n-- Shows only orders that have corresponding returns\n-- Includes return details and financial impact\nSELECT \n    o.order_id,\n    o.customer_id,\n    c.customer_name,\n    o.order_date,\n    o.order_total,\n    o.status AS order_status,\n    r.return_id,\n    r.return_date,\n    r.return_reason,\n    r.refund_amount,\n    (o.order_total - r.refund_amount) AS net_revenue,\n    ROUND((r.refund_amount / o.order_total) * 100, 2) AS return_percentage\nFROM orders o\nINNER JOIN returns r ON o.order_id = r.order_id\nINNER JOIN customers c ON o.customer_id = c.customer_id\nORDER BY o.order_date DESC, r.return_date DESC;" }

/-- The named-query list stored on the stack
(`this.namedQueries = [topOrdersQuery, returnsByCustomerQuery,
returnedOrdersQuery]` in `cdk/lib/athena-stack.ts`). -/
def namedQueries : List CfnNamedQuery :=
  [topOrdersQuery, returnsByCustomerQuery, returnedOrdersQuery]

/-- The `NamedQueriesCount` CloudFormation output of `cdk/bin/app.ts`:
`athenaStack.namedQueries.length.toString()`. -/
def namedQueriesCountOutput : String :=
  toString namedQueries.length

/-- Sample statistics used by concrete witnesses (values from the response
example in `ui/README.md`). -/
def sampleStats : Stats :=
  { executionTimeMs := 1500, bytesScanned := 1024 }

/-- A result page whose first data row duplicates the column header. -/
def headerDupPage : Page :=
  { columns := [{ name := "order_id", type := "varchar" }]
    rows := [["order_id"], ["ORD-061"]]
    nextToken := none }

/-- A result page whose first data row does not match the column header. -/
def plainPage : Page :=
  { columns := [{ name := "order_id", type := "varchar" }]
    rows := [["ORD-060"], ["ORD-061"]]
    nextToken := none }

/-- A first result page carrying a continuation token. -/
def firstPage : Page :=
  { columns := [{ name := "order_id", type := "varchar" }]
    rows := [["ORD-061"]]
    nextToken := some "tok1" }

/-- A final result page with no continuation token. -/
def lastPage : Page :=
  { columns := []
    rows := [["ORD-064"]]
    nextToken := none }

/-! ### Poll-loop lemmas -/

theorem range_map_shift (a t interval n : Nat) :
    (a, t) :: (List.range n).map (fun k => (a + 1 + k, t + interval + k * interval)) =
      (List.range (n + 1)).map fun k => (a + k, t + k * interval) := by
  have hfun : (fun k : Nat => (a + 1 + k, t + interval + k * interval)) =
      (fun k : Nat => (a + k, t + k * interval)) ∘ Nat.succ := by
    funext k
    simp only [Function.comp_apply, Nat.succ_eq_add_one, Prod.mk.injEq]
    constructor <;> ring
  rw [List.range_succ_eq_map, List.map_cons, List.map_map, hfun]
  simp

theorem pollFrom_length_le (engine : Nat → StatusReport) (interval : Nat) :
    ∀ fuel attempt now, (pollFrom engine interval fuel attempt now).2.length ≤ fuel := by
  intro fuel
  induction fuel with
  | zero => intro a t; simp [pollFrom]
  | succ n ih =>
    intro a t
    cases h : classify (engine a) with
    | some res => simp [pollFrom, h]
    | none =>
      simp only [pollFrom, h, List.length_cons]
      exact Nat.succ_le_succ (ih (a + 1) (t + interval))

theorem pollFrom_all_pending (engine : Nat → StatusReport) (interval : Nat) :
    ∀ fuel attempt now, (∀ k, k < fuel → classify (engine (attempt + k)) = none) →
      pollFrom engine interval fuel attempt now =
        (PollResult.timedOut,
          (List.range fuel).map fun k => (attempt + k, now + k * interval)) := by
  intro fuel
  induction fuel with
  | zero => intro a t _; simp [pollFrom]
  | succ n ih =>
    intro a t h
    have h0 : classify (engine a) = none := by simpa using h 0 (Nat.succ_pos n)
    have hrec := ih (a + 1) (t + interval) (fun k hk => by
      have hx := h (k + 1) (Nat.succ_lt_succ hk)
      simpa [Nat.add_comm, Nat.add_left_comm, Nat.add_assoc] using hx)
    simp only [pollFrom, h0, hrec]
    exact congrArg _ (range_map_shift a t interval n)

theorem pollFrom_first_terminal (engine : Nat → StatusReport) (interval : Nat) :
    ∀ fuel i attempt now res, i < fuel →
      classify (engine (attempt + i)) = some res →
      (∀ k, k < i → classify (engine (attempt + k)) = none) →
      pollFrom engine interval fuel attempt now =
        (res, (List.range (i + 1)).map fun k => (attempt + k, now + k * interval)) := by
  intro fuel
  induction fuel with
  | zero => intro i a t res hi; exact absurd hi (Nat.not_lt_zero i)
  | succ n ih =>
    intro i a t res hi hterm hfirst
    cases i with
    | zero =>
      have h0 : classify (engine a) = some res := by simpa using hterm
      simp [pollFrom, h0, List.range_succ]
    | succ j =>
      have h0 : classify (engine a) = none := by
        simpa using hfirst 0 (Nat.succ_pos j)
      have hterm2 : classify (engine (a + 1 + j)) = some res := by
        have : a + 1 + j = a + (j + 1) := by ring
        rw [this]; exact hterm
      have hfirst2 : ∀ k, k < j → classify (engine (a + 1 + k)) = none := by
        intro k hk
        have : a + 1 + k = a + (k + 1) := by ring
        rw [this]; exact hfirst (k + 1) (Nat.succ_lt_succ hk)
      have hrec := ih j (a + 1) (t + interval) res (Nat.lt_of_succ_lt_succ hi)
        hterm2 hfirst2
      simp only [pollFrom, h0, hrec]
      exact congrArg _ (range_map_shift a t interval (j + 1))

theorem pollFrom_trace (engine : Nat → StatusReport) (interval : Nat) :
    ∀ fuel attempt now,
      (pollFrom engine interval fuel attempt now).2 =
        (List.range (pollFrom engine interval fuel attempt now).2.length).map
          fun k => (attempt + k, now + k * interval) := by
  intro fuel
  induction fuel with
  | zero => intro a t; simp [pollFrom]
  | succ n ih =>
    intro a t
    cases h : classify (engine a) with
    | some res => simp [pollFrom, h, List.range_succ]
    | none =>
      simp only [pollFrom, h, List.length_cons]
      rw [ih (a + 1) (t + interval)]
      rw [List.length_map, List.length_range]
      exact range_map_shift a t interval _

/-! ### Claim theorems about the poller -/

/-- Claim C3: for every execution, including one whose engine status never
leaves Running, the poll loop terminates after at most its bounded attempt
budget of 30 attempts, and when the budget is exhausted without a terminal
engine status it returns the TimedOut outcome instead of hanging. -/
theorem poller_bounded_budget (engine : Nat → StatusReport) :
    (runPoller engine).2.length ≤ 30 ∧
      ((∀ i, i < 30 → classify (engine i) = none) →
        (runPoller engine).1 = PollResult.timedOut) := by
  constructor
  · exact pollFrom_length_le engine pollInterval 30 0 0
  · intro h
    have hall := pollFrom_all_pending engine pollInterval 30 0 0
      (fun k hk => by simpa using h k hk)
    have h2 : runPoller engine =
        (PollResult.timedOut,
          (List.range 30).map fun k => (0 + k, 0 + k * pollInterval)) := hall
    rw [h2]

/-- Witness for C3: an engine that reports `RUNNING` forever is polled at most
30 times and yields the TimedOut outcome. -/
theorem poller_bounded_budget_witness :
    (runPoller fun _ => { state := "RUNNING", reason := "" }).2.length ≤ 30 ∧
      (runPoller fun _ => { state := "RUNNING", reason := "" }).1 =
        PollResult.timedOut :=
  ⟨(poller_bounded_budget fun _ => { state := "RUNNING", reason := "" }).1,
    (poller_bounded_budget fun _ => { state := "RUNNING", reason := "" }).2
      (by decide)⟩

/-- Claim C4: state transitions are monotonic: once a terminal classification
is reached at the i-th status query, the poller issues no further status
queries (the trace has exactly i + 1 entries), and after the TimedOut budget
no polls happen either (the trace never exceeds 30 entries). -/
theorem poller_monotonic (engine : Nat → StatusReport) (i : Nat)
    (res : PollResult) (hi : i < 30) (hterm : classify (engine i) = some res)
    (hfirst : ∀ k, k < i → classify (engine k) = none) :
    (runPoller engine).2.length = i + 1 ∧ (runPoller engine).2.length ≤ 30 := by
  have h := pollFrom_first_terminal engine pollInterval 30 i 0 0 res hi
    (by simpa using hterm) (fun k hk => by simpa using hfirst k hk)
  have h2 : runPoller engine =
      (res, (List.range (i + 1)).map fun k => (0 + k, 0 + k * pollInterval)) := h
  constructor
  · rw [h2]; simp
  · exact pollFrom_length_le engine pollInterval 30 0 0

/-- Witness for C4: an engine that reports `RUNNING` once and then
`SUCCEEDED` is queried exactly twice. -/
theorem poller_monotonic_witness :
    (runPoller fun n =>
        if n = 0 then { state := "RUNNING", reason := "" }
        else { state := "SUCCEEDED", reason := "" }).2.length = 1 + 1 ∧
      (runPoller fun n =>
        if n = 0 then { state := "RUNNING", reason := "" }
        else { state := "SUCCEEDED", reason := "" }).2.length ≤ 30 :=
  poller_monotonic
    (fun n =>
      if n = 0 then { state := "RUNNING", reason := "" }
      else { state := "SUCCEEDED", reason := "" })
    1 PollResult.success (by decide) (by decide) (by decide)

/-- Claim C2: a poll iteration whose engine status lies outside the known set
{QUEUED, RUNNING, SUCCEEDED, FAILED, CANCELLED} is treated as an
unknown-status failure (ErrorKind.unknownState) and polling stops there
instead of silently retrying it indefinitely. -/
theorem poller_unknown_state (engine : Nat → StatusReport) (i : Nat)
    (hi : i < 30) (hunknown : (engine i).state ∉ knownStates)
    (hfirst : ∀ k, k < i → classify (engine k) = none) :
    (runPoller engine).1 =
        PollResult.failure ErrorKind.unknownState (engine i).state ∧
      (runPoller engine).2.length = i + 1 := by
  simp only [knownStates, List.mem_cons, List.not_mem_nil, or_false] at hunknown
  push_neg at hunknown
  obtain ⟨h1, h2, h3, h4, h5⟩ := hunknown
  have hclass : classify (engine i) =
      some (PollResult.failure ErrorKind.unknownState (engine i).state) := by
    simp [classify, h1, h2, h3, h4, h5]
  have h := pollFrom_first_terminal engine pollInterval 30 i 0 0
    (PollResult.failure ErrorKind.unknownState (engine i).state) hi
    (by simpa using hclass) (fun k hk => by simpa using hfirst k hk)
  have hrun : runPoller engine =
      (PollResult.failure ErrorKind.unknownState (engine i).state,
        (List.range (i + 1)).map fun k => (0 + k, 0 + k * pollInterval)) := h
  rw [hrun]
  simp

/-- Witness for C2: an engine that immediately reports the status
`"BORKED"` produces an UnknownState failure after exactly one status query. -/
theorem poller_unknown_state_witness :
    (runPoller fun _ => { state := "BORKED", reason := "" }).1 =
        PollResult.failure ErrorKind.unknownState "BORKED" ∧
      (runPoller fun _ => { state := "BORKED", reason := "" }).2.length = 0 + 1 :=
  poller_unknown_state (fun _ => { state := "BORKED", reason := "" }) 0
    (by decide) (by decide) (by decide)

/-- Claim C5: when the first terminal status observed is Failed or Cancelled,
the engine-supplied reason string is captured verbatim and wrapped into the
typed failure the poller returns (EngineFailure for Failed, Cancelled for
Cancelled). -/
theorem poller_failure_reason (engine : Nat → StatusReport) (i : Nat)
    (hi : i < 30) (hfirst : ∀ k, k < i → classify (engine k) = none) :
    ((engine i).state = "FAILED" →
      (runPoller engine).1 =
        PollResult.failure ErrorKind.engineFailure (engine i).reason) ∧
    ((engine i).state = "CANCELLED" →
      (runPoller engine).1 =
        PollResult.failure ErrorKind.cancelled (engine i).reason) := by
  constructor
  · intro hf
    have hclass : classify (engine i) =
        some (PollResult.failure ErrorKind.engineFailure (engine i).reason) := by
      simp [classify, hf]
    have h := pollFrom_first_terminal engine pollInterval 30 i 0 0
      (PollResult.failure ErrorKind.engineFailure (engine i).reason) hi
      (by simpa using hclass) (fun k hk => by simpa using hfirst k hk)
    have hrun : runPoller engine =
        (PollResult.failure ErrorKind.engineFailure (engine i).reason,
          (List.range (i + 1)).map fun k => (0 + k, 0 + k * pollInterval)) := h
    rw [hrun]
  · intro hc
    have hclass : classify (engine i) =
        some (PollResult.failure ErrorKind.cancelled (engine i).reason) := by
      simp [classify, hc]
    have h := pollFrom_first_terminal engine pollInterval 30 i 0 0
      (PollResult.failure ErrorKind.cancelled (engine i).reason) hi
      (by simpa using hclass) (fun k hk => by simpa using hfirst k hk)
    have hrun : runPoller engine =
        (PollResult.failure ErrorKind.cancelled (engine i).reason,
          (List.range (i + 1)).map fun k => (0 + k, 0 + k * pollInterval)) := h
    rw [hrun]

/-- Witness for C5: an engine whose first report is Failed with reason
"syntax error" yields Failure(EngineFailure, "syntax error"). -/
theorem poller_failure_reason_witness :
    (runPoller fun _ => { state := "FAILED", reason := "syntax error" }).1 =
      PollResult.failure ErrorKind.engineFailure "syntax error" :=
  (poller_failure_reason (fun _ => { state := "FAILED", reason := "syntax error" })
    0 (by decide) (by decide)).1 rfl

/-- Claim C9: status checks are strictly sequential and evenly spaced: the
k-th status query of a run is the k-th attempt (exactly one status query per
iteration, never two pending at once) and happens at clock k * pollInterval,
one fixed interval after the previous one. -/
theorem poller_sequential_spacing (engine : Nat → StatusReport) :
    (runPoller engine).2 =
      (List.range (runPoller engine).2.length).map
        fun k => (k, k * pollInterval) := by
  have h := pollFrom_trace engine pollInterval 30 0 0
  have h2 : (runPoller engine).2 =
      (List.range (runPoller engine).2.length).map
        fun k => (0 + k, 0 + k * pollInterval) := h
  simpa using h2

/-! ### Claim theorems about the normalizer -/

theorem dropDuplicateHeader_cases (names : List String)
    (rows : List (List String)) :
    (rows.head? = some names → dropDuplicateHeader names rows = rows.tail) ∧
      (rows.head? ≠ some names → dropDuplicateHeader names rows = rows) := by
  cases rows with
  | nil =>
    exact ⟨fun h => by simp at h, fun _ => rfl⟩
  | cons r rest =>
    constructor
    · intro h
      have hr : r = names := by simpa using h
      simp [dropDuplicateHeader, hr]
    · intro h
      have hr : r ≠ names := by simpa using h
      simp [dropDuplicateHeader, hr]

/-- Claim C1: the normalizer removes exactly one leading row, and only when
that first row equals the column names positionally; when the first row does
not match, no row is dropped and the reported rowCount equals the number of
genuine data rows. -/
theorem normalizer_duplicate_header (pages : List Page) (stats : Stats) :
    ((allRows pages).head? = some (columnNames pages) →
        (assemble pages stats).rows = (allRows pages).tail ∧
          (assemble pages stats).rowCount = (allRows pages).length - 1) ∧
      ((allRows pages).head? ≠ some (columnNames pages) →
        (assemble pages stats).rows = allRows pages ∧
          (assemble pages stats).rowCount = (allRows pages).length) := by
  have hrows : (assemble pages stats).rows =
      dropDuplicateHeader (columnNames pages) (allRows pages) := rfl
  have hcount : (assemble pages stats).rowCount =
      (assemble pages stats).rows.length := rfl
  constructor
  · intro h
    have hd := (dropDuplicateHeader_cases (columnNames pages) (allRows pages)).1 h
    refine ⟨by rw [hrows, hd], ?_⟩
    rw [hcount, hrows, hd, List.length_tail]
  · intro h
    have hd := (dropDuplicateHeader_cases (columnNames pages) (allRows pages)).2 h
    exact ⟨by rw [hrows, hd], by rw [hcount, hrows, hd]⟩

/-- Witness for C1: a single page whose first row duplicates the header
["order_id"] loses exactly that row (rowCount 1), and the same page with a
non-matching first row keeps both rows (rowCount 2). -/
theorem normalizer_duplicate_header_witness :
    (assemble [headerDupPage] sampleStats).rows = [["ORD-061"]] ∧
      (assemble [headerDupPage] sampleStats).rowCount = 2 - 1 ∧
      (assemble [plainPage] sampleStats).rowCount = 2 := by
  have h1 := (normalizer_duplicate_header [headerDupPage] sampleStats).1
    (by decide)
  have h2 := (normalizer_duplicate_header [plainPage] sampleStats).2
    (by decide)
  refine ⟨?_, h1.2, h2.2⟩
  rw [h1.1]
  decide

theorem collectPages_complete (pre : List Page)
    (hpre : ∀ p ∈ pre, p.nextToken.isSome) (last : Page)
    (hlast : last.nextToken = none) (rest : List (Except String Page)) :
    collectPages (pre.map Except.ok ++ Except.ok last :: rest) =
      Except.ok (pre ++ [last]) := by
  induction pre with
  | nil => simp [collectPages, hlast]
  | cons p ps ih =>
    have hp : p.nextToken.isSome := hpre p (by simp)
    obtain ⟨tok, htok⟩ := Option.isSome_iff_exists.mp hp
    have ihx := ih (fun q hq => hpre q (by simp [hq]))
    simp [collectPages, htok, ihx, Except.map]

theorem collectPages_error (pre : List Page)
    (hpre : ∀ p ∈ pre, p.nextToken.isSome) (e : String)
    (rest : List (Except String Page)) :
    collectPages (pre.map Except.ok ++ Except.error e :: rest) =
      Except.error e := by
  induction pre with
  | nil => simp [collectPages]
  | cons p ps ih =>
    have hp : p.nextToken.isSome := hpre p (by simp)
    obtain ⟨tok, htok⟩ := Option.isSome_iff_exists.mp hp
    have ihx := ih (fun q hq => hpre q (by simp [hq]))
    simp [collectPages, htok, ihx, Except.map]

/-- Claim C6: for a Succeeded execution the normalizer fetches pages until the
engine returns no continuation token, assembling every fetched page into one
ResultSet; if any page fetch fails before that point, the entire normalization
fails instead of silently returning a partial ResultSet. -/
theorem normalizer_pagination (pre : List Page)
    (hpre : ∀ p ∈ pre, p.nextToken.isSome) (last : Page)
    (hlast : last.nextToken = none) (rest : List (Except String Page))
    (e : String) (stats : Stats) :
    normalizeResults (pre.map Except.ok ++ Except.ok last :: rest) stats =
        Except.ok (assemble (pre ++ [last]) stats) ∧
      normalizeResults (pre.map Except.ok ++ Except.error e :: rest) stats =
        Except.error e := by
  constructor
  · rw [normalizeResults, collectPages_complete pre hpre last hlast rest]
    rfl
  · rw [normalizeResults, collectPages_error pre hpre e rest]
    rfl

/-- Witness for C6: a two-page result (first page with a continuation token,
second without) normalizes to both pages assembled, while the same first page
followed by a failed fetch fails the whole normalization. -/
theorem normalizer_pagination_witness :
    normalizeResults [Except.ok firstPage, Except.ok lastPage] sampleStats =
        Except.ok (assemble [firstPage, lastPage] sampleStats) ∧
      normalizeResults
          [Except.ok firstPage, Except.error "network failure mid-fetch"]
          sampleStats =
        Except.error "network failure mid-fetch" :=
  normalizer_pagination [firstPage] (by decide) lastPage rfl []
    "network failure mid-fetch" sampleStats

/-! ### Claim theorems about the dispatcher and facade -/

/-- Claim C7: a named-query request whose id is not in the catalog fails with
NotFound and no submission call is ever issued to the engine; there is no
silent fallback to a default query. -/
theorem dispatcher_named_not_found (catalog : List NamedQueryEntry)
    (maxLen : Nat) (engine : EngineModel) (i : String)
    (h : ∀ e ∈ catalog, e.id ≠ i) :
    execute catalog maxLen engine (QueryRequest.named i) =
      (QueryOutcome.failure ErrorKind.notFound ("Named query not found: " ++ i),
        0) := by
  have hfind : lookupNamed catalog i = none := by
    rw [lookupNamed, List.find?_eq_none]
    intro e he
    simpa using h e he
  simp [execute, resolveRequest, hfind]

/-- Witness for C7: the id "does_not_exist" is absent from the UI server
catalog, so execution fails with NotFound and zero submission calls. -/
theorem dispatcher_named_not_found_witness :
    execute serverCatalog 262144
        { statusAt := fun _ => { state := "RUNNING", reason := "" }
          pages := []
          stats := sampleStats }
        (QueryRequest.named "does_not_exist") =
      (QueryOutcome.failure ErrorKind.notFound
        ("Named query not found: " ++ "does_not_exist"), 0) :=
  dispatcher_named_not_found serverCatalog 262144
    { statusAt := fun _ => { state := "RUNNING", reason := "" }
      pages := []
      stats := sampleStats }
    "does_not_exist" (by decide)

/-- Claim C8: a custom request whose SQL is empty (or only whitespace after
trimming) or exceeds the configured maximum length fails with InvalidRequest
before any engine interaction: no submission call is made. -/
theorem dispatcher_invalid_request (catalog : List NamedQueryEntry)
    (maxLen : Nat) (engine : EngineModel) (sql : String)
    (h : blankSql sql = true ∨ maxLen < sql.length) :
    ∃ m, execute catalog maxLen engine (QueryRequest.custom sql) =
      (QueryOutcome.failure ErrorKind.invalidRequest m, 0) := by
  rcases h with h | h
  · exact ⟨"SQL query cannot be empty", by simp [execute, resolveRequest, h]⟩
  · by_cases ht : blankSql sql = true
    · exact ⟨"SQL query cannot be empty", by simp [execute, resolveRequest, ht]⟩
    · exact ⟨"SQL query exceeds maximum length",
        by simp [execute, resolveRequest, ht, h]⟩

/-- Witness for C8: submitting the empty SQL string yields
Failure(InvalidRequest) with zero submission calls. -/
theorem dispatcher_invalid_request_witness :
    ∃ m, execute serverCatalog 262144
        { statusAt := fun _ => { state := "RUNNING", reason := "" }
          pages := []
          stats := sampleStats }
        (QueryRequest.custom "") =
      (QueryOutcome.failure ErrorKind.invalidRequest m, 0) :=
  dispatcher_invalid_request serverCatalog 262144
    { statusAt := fun _ => { state := "RUNNING", reason := "" }
      pages := []
      stats := sampleStats }
    "" (Or.inl (by decide))

/-! ### Claim theorem about the provisioned named-query catalog -/

/-- Claim C10: the infrastructure provisions exactly three named queries, with
names top_10_orders_by_total, returns_by_customer and
orders_that_were_returned, all registered in the workgroup lean_demo_wg, and
the exported NamedQueriesCount output equals the catalog size, 3. -/
theorem named_query_catalog_provisioned :
    namedQueries.length = 3 ∧
      namedQueries.map CfnNamedQuery.name =
        ["top_10_orders_by_total", "returns_by_customer",
          "orders_that_were_returned"] ∧
      namedQueries.map CfnNamedQuery.workGroup =
        [workGroupName, workGroupName, workGroupName] ∧
      workGroupName = "lean_demo_wg" ∧
      namedQueriesCountOutput = toString namedQueries.length ∧
      namedQueriesCountOutput = "3" :=
  ⟨rfl, rfl, rfl, rfl, rfl, rfl⟩

end LeanAnalytics

